import Mathlib

/-!
Verification development for the HawkSightAI data-governance pipeline.

The pipeline (src/agents/agents.py) runs five stages over a shared
run-scoped session state: Profiler, Drift & Anomaly Detector, PII Scanner,
Repair Engine, Report Compiler.  The agent classes in `agents.py` are
embedded directly.  The stage tool functions live in `tools/data_tools.py`,
which is not part of the sources available here; where a claim depends on
them they are modelled from the specification (each such definition is
marked `Modelled from the spec:`).
-/

namespace HawkSight

/-! ## Data model (spec section 3) -/

/-- Column dtype as inferred by the Profiler (spec section 4.1). -/
inductive Dtype where
  | numeric
  | text
  | boolean
  | datetime
  | unknown
deriving DecidableEq, Repr

/-- Summary statistics for a numeric column.  Stats are modelled as
rationals (exact arithmetic stands in for Python floats). -/
structure NumericStats where
  min : Rat
  max : Rat
  mean : Rat
  std : Rat
deriving DecidableEq, Repr

/-- Per-column entry of a Profile. -/
structure ColumnProfile where
  dtype : Dtype
  missing_count : Nat
  numeric_stats : Option NumericStats
deriving DecidableEq, Repr

/-- Profile of a dataset: row count plus an ordered column mapping. -/
structure Profile where
  row_count : Nat
  columns : List (String × ColumnProfile)
deriving DecidableEq, Repr

/-- Look up a column entry by name (first match, as in a dict). -/
def Profile.find (p : Profile) (c : String) : Option ColumnProfile :=
  (p.columns.find? (fun kc => kc.1 == c)).map Prod.snd

/-- Kinds of anomalies the Detector reports (spec section 3). -/
inductive AnomalyKind where
  | schemaDrift
  | distributionShift
  | duplicateRows
deriving DecidableEq, Repr

/-- A discrete Detector finding. -/
structure Anomaly where
  kind : AnomalyKind
  column : Option String
  description : String
deriving DecidableEq, Repr

/-- A PII Scanner finding. -/
structure ComplianceIssue where
  column : String
  row : Nat
  value : String
  description : String
deriving DecidableEq, Repr

/-- A tabular dataset: header of column names and rows of cell strings. -/
structure Dataset where
  header : List String
  rows : List (List String)
deriving DecidableEq, Repr

/-! ## Python values and the run-context dict

The session state of `agents.py` is a Python dict mapping string keys to
stage results.  `Value` covers the value shapes the stages store, with
`Value.none` playing the role of Python `None`. -/

inductive Value where
  | none
  | str (s : String)
  | profile (p : Profile)
  | anomalies (xs : List Anomaly)
  | issues (xs : List ComplianceIssue)
deriving DecidableEq, Repr

/-- A Python dict with string keys, as an insertion-ordered assoc list. -/
abbrev Dict : Type := List (String × Value)

/-- `d.get(k)`: `some v` when the key is present, otherwise `Option.none`. -/
def dictGet (d : Dict) (k : String) : Option Value :=
  (List.find? (fun p => p.1 == k) d).map Prod.snd

/-- `d.get(k)` as Python writes it: returns `None` for a missing key. -/
def dictGetD (d : Dict) (k : String) : Value :=
  (dictGet d k).getD Value.none

/-- `d[k] = v`: update in place when present, append when new
(Python dicts preserve insertion order). -/
def dictSet : Dict → String → Value → Dict
  | [], k, v => [(k, v)]
  | p :: rest, k, v => if p.1 = k then (k, v) :: rest else p :: dictSet rest k v

theorem dictGet_cons (p : String × Value) (rest : Dict) (k : String) :
    dictGet (p :: rest) k = if p.1 = k then some p.2 else dictGet rest k := by
  by_cases h : p.1 = k
  · rw [if_pos h]
    unfold dictGet
    rw [List.find?_cons_of_pos _ (by simpa using h)]
    rfl
  · rw [if_neg h]
    unfold dictGet
    rw [List.find?_cons_of_neg _ (by simpa using h)]

theorem dictGet_dictSet (d : Dict) (k k' : String) (v : Value) :
    dictGet (dictSet d k v) k' = if k' = k then some v else dictGet d k' := by
  induction d with
  | nil =>
    rw [show dictSet [] k v = [(k, v)] from rfl, dictGet_cons]
    rcases eq_or_ne k' k with h | h
    · subst h
      simp
    · rw [if_neg (fun hh => h hh.symm), if_neg h]
  | cons p rest ih =>
    by_cases hpk : p.1 = k
    · rw [show dictSet (p :: rest) k v = (k, v) :: rest from by simp [dictSet, hpk]]
      rw [dictGet_cons, dictGet_cons]
      rcases eq_or_ne k' k with h | h
      · subst h
        simp
      · rw [if_neg (fun hh => h hh.symm), if_neg h, hpk,
          if_neg (fun hh => h hh.symm)]
    · rw [show dictSet (p :: rest) k v = p :: dictSet rest k v from by simp [dictSet, hpk]]
      rw [dictGet_cons, dictGet_cons]
      by_cases h2 : p.1 = k'
      · rw [if_neg (fun hh : k' = k => hpk (h2.trans hh)), if_pos h2, if_pos h2]
      · rw [if_neg h2, if_neg h2]
        exact ih

theorem dictGet_dictSet_self (d : Dict) (k : String) (v : Value) :
    dictGet (dictSet d k v) k = some v := by
  simp [dictGet_dictSet]

theorem dictGet_dictSet_other (d : Dict) (k k' : String) (v : Value) (h : k' ≠ k) :
    dictGet (dictSet d k v) k' = dictGet d k' := by
  simp [dictGet_dictSet, h]

/-! ## Duplicate removal, keeping the first occurrence (spec section 4.4) -/

/-- Remove exact duplicates from a list, keeping the first occurrence of
each element and preserving the relative order of kept elements. -/
def dedupKeepFirst {α : Type} [DecidableEq α] : List α → List α
  | [] => []
  | r :: rs => r :: dedupKeepFirst (rs.filter (fun y => y ≠ r))
termination_by l => l.length
decreasing_by
  simpa [Nat.lt_succ_iff] using List.length_filter_le (fun y => decide (y ≠ r)) rs

theorem mem_dedupKeepFirst {α : Type} [DecidableEq α] (a : α) (l : List α) :
    a ∈ dedupKeepFirst l ↔ a ∈ l := by
  induction l using dedupKeepFirst.induct with
  | case1 => simp [dedupKeepFirst]
  | case2 r rs ih =>
    rw [dedupKeepFirst]
    constructor
    · intro h
      rcases List.mem_cons.mp h with h | h
      · exact List.mem_cons.mpr (Or.inl h)
      · exact List.mem_cons_of_mem _ (List.mem_filter.mp (ih.mp h)).1
    · intro h
      rcases List.mem_cons.mp h with h | h
      · exact List.mem_cons.mpr (Or.inl h)
      · by_cases har : a = r
        · exact List.mem_cons.mpr (Or.inl har)
        · exact List.mem_cons_of_mem _
            (ih.mpr (List.mem_filter.mpr ⟨h, by simpa using har⟩))

theorem nodup_dedupKeepFirst {α : Type} [DecidableEq α] (l : List α) :
    (dedupKeepFirst l).Nodup := by
  induction l using dedupKeepFirst.induct with
  | case1 => simp [dedupKeepFirst]
  | case2 r rs ih =>
    rw [dedupKeepFirst]
    refine List.nodup_cons.mpr ⟨?_, ih⟩
    intro hmem
    have := (List.mem_filter.mp ((mem_dedupKeepFirst _ _).mp hmem)).2
    simp at this

theorem dedupKeepFirst_sublist {α : Type} [DecidableEq α] (l : List α) :
    (dedupKeepFirst l).Sublist l := by
  induction l using dedupKeepFirst.induct with
  | case1 => simp [dedupKeepFirst]
  | case2 r rs ih =>
    rw [dedupKeepFirst]
    exact List.Sublist.cons₂ r (ih.trans (List.filter_sublist rs))

theorem dedupKeepFirst_length_le {α : Type} [DecidableEq α] (l : List α) :
    (dedupKeepFirst l).length ≤ l.length :=
  (dedupKeepFirst_sublist l).length_le

theorem dedupKeepFirst_of_nodup {α : Type} [DecidableEq α] (l : List α)
    (h : l.Nodup) : dedupKeepFirst l = l := by
  induction l using dedupKeepFirst.induct with
  | case1 => simp [dedupKeepFirst]
  | case2 r rs ih =>
    rw [dedupKeepFirst]
    rcases List.nodup_cons.mp h with ⟨hr, hrs⟩
    have hfil : rs.filter (fun y => y ≠ r) = rs :=
      List.filter_eq_self.mpr (fun a ha => by
        simp only [ne_eq, decide_not, Bool.not_eq_true', decide_eq_false_iff_not]
        intro har
        exact hr (har ▸ ha))
    rw [hfil] at ih ⊢
    rw [ih hrs]

theorem dedupKeepFirst_first_occ {α : Type} [DecidableEq α] (l₁ : List α) :
    ∀ (r : α) (l₂ : List α), r ∉ l₁ →
      ∃ t, dedupKeepFirst (l₁ ++ r :: l₂) = dedupKeepFirst l₁ ++ r :: t := by
  induction l₁ using dedupKeepFirst.induct with
  | case1 =>
    intro r l₂ _
    refine ⟨dedupKeepFirst (l₂.filter (fun y => y ≠ r)), ?_⟩
    simp only [List.nil_append]
    rw [dedupKeepFirst, dedupKeepFirst]
    simp [dedupKeepFirst]
  | case2 x xs ih =>
    intro r l₂ h
    have hrx : r ≠ x := fun hrx => h (List.mem_cons.mpr (Or.inl hrx))
    have hrxs : r ∉ xs := fun hm => h (List.mem_cons_of_mem _ hm)
    have hrfil : r ∉ xs.filter (fun y => y ≠ x) :=
      fun hm => hrxs (List.mem_filter.mp hm).1
    rcases ih r (l₂.filter (fun y => y ≠ x)) hrfil with ⟨t, ht⟩
    refine ⟨t, ?_⟩
    have hcons : (x :: xs) ++ r :: l₂ = x :: (xs ++ r :: l₂) := rfl
    have hfr : (r :: l₂).filter (fun y => y ≠ x) = r :: l₂.filter (fun y => y ≠ x) := by
      simp [List.filter_cons, hrx]
    rw [hcons, dedupKeepFirst, List.filter_append, hfr, ht, dedupKeepFirst]
    rfl

/-! ## Drift & Anomaly Detector (spec section 4.2)

`detect_anomalies_and_drift` lives in `tools/data_tools.py`, which is not
among the available sources, so it is modelled from the specification. -/

/-- Modelled from the spec: the fixed relative-change threshold for
distribution-shift detection ("e.g., 20%"). -/
def DRIFT_THRESHOLD : Rat := mkRat 1 5

theorem DRIFT_THRESHOLD_eq : DRIFT_THRESHOLD = 1 / 5 := by
  rw [DRIFT_THRESHOLD, Rat.mkRat_eq_div]
  norm_num

/-- Modelled from the spec: relative change `|cur − base| / |base|`
between a baseline and a current statistic, written as one
cross-multiplied fraction (`relChange_eq_abs_div` proves it equal to the
quotient form whenever the baseline is nonzero; for a zero baseline the
spec fixes nothing and this form yields 0, never flagging). -/
def relChange (base cur : Rat) : Rat :=
  mkRat (cur.num * (base.den : Int) - base.num * (cur.den : Int)).natAbs
        (cur.den * base.num.natAbs)

theorem relChange_eq_abs_div (base cur : Rat) (h : base ≠ 0) :
    relChange base cur = |cur - base| / |base| := by
  rw [relChange, Rat.mkRat_eq_div]
  push_cast [Int.cast_natAbs]
  have hcd : ((cur.den : Rat)) ≠ 0 := by
    exact_mod_cast cur.den_nz
  have hbd : ((base.den : Rat)) ≠ 0 := by
    exact_mod_cast base.den_nz
  have hbn : ((base.num : Rat)) ≠ 0 := by
    exact_mod_cast Rat.num_ne_zero.mpr h
  have hsub : cur - base = ((cur.num * base.den - base.num * cur.den : Int) : Rat)
      / ((cur.den : Rat) * (base.den : Rat)) := by
    rw [eq_div_iff (mul_ne_zero hcd hbd)]
    push_cast
    rw [(div_eq_iff hcd).mp (Rat.num_div_den cur),
        (div_eq_iff hbd).mp (Rat.num_div_den base)]
    ring
  have hbase : |base| = |(base.num : Rat)| / (base.den : Rat) := by
    conv_lhs => rw [← Rat.num_div_den base]
    rw [abs_div, abs_of_nonneg (show (0:Rat) ≤ (base.den : Rat) by positivity)]
  rw [hsub, hbase, abs_div, abs_mul]
  rw [abs_of_nonneg (show (0:Rat) ≤ (cur.den : Rat) by positivity),
      abs_of_nonneg (show (0:Rat) ≤ (base.den : Rat) by positivity)]
  push_cast
  field_simp
  ring

/-- Modelled from the spec: a numeric column is flagged when the relative
change in mean or std exceeds the threshold. -/
def shiftFlag (bs cs : NumericStats) : Bool :=
  decide (relChange bs.mean cs.mean > DRIFT_THRESHOLD) ||
    decide (relChange bs.std cs.std > DRIFT_THRESHOLD)

/-- Modelled from the spec: schema-drift step of the Detector.  Removed
columns (baseline order), then added columns (current order), then dtype
changes (current order). -/
def schemaDriftAnomalies (b cur : Profile) : List Anomaly :=
  ((b.columns.filter (fun kc => (cur.find kc.1).isNone)).map
      (fun kc => ⟨AnomalyKind.schemaDrift, some kc.1, "column removed: " ++ kc.1⟩))
  ++ ((cur.columns.filter (fun kc => (b.find kc.1).isNone)).map
      (fun kc => ⟨AnomalyKind.schemaDrift, some kc.1, "column added: " ++ kc.1⟩))
  ++ ((cur.columns.filter (fun kc =>
        match b.find kc.1 with
        | some bc => decide (bc.dtype ≠ kc.2.dtype)
        | Option.none => false)).map
      (fun kc => ⟨AnomalyKind.schemaDrift, some kc.1, "type changed: " ++ kc.1⟩))

/-- Modelled from the spec: distribution-shift step of the Detector, in
current-profile column order, over numeric columns present in both. -/
def distributionShiftAnomalies (b cur : Profile) : List Anomaly :=
  cur.columns.filterMap (fun kc =>
    kc.2.numeric_stats.bind (fun cs =>
      ((b.find kc.1).bind ColumnProfile.numeric_stats).bind (fun bs =>
        if shiftFlag bs cs then
          some ⟨AnomalyKind.distributionShift, some kc.1,
            "distribution shift: " ++ kc.1⟩
        else Option.none)))

/-- Number of exact-duplicate rows in a dataset (rows beyond the first
occurrence of each distinct row). -/
def countDuplicateRows (rows : List (List String)) : Nat :=
  rows.length - (dedupKeepFirst rows).length

/-- Modelled from the spec: duplicate-detection step — one `duplicate-rows`
anomaly summarizing the count when any duplicates exist. -/
def duplicateAnomalies (rows : List (List String)) : List Anomaly :=
  if 0 < countDuplicateRows rows then
    [⟨AnomalyKind.duplicateRows, Option.none,
      "duplicate rows detected: " ++ toString (countDuplicateRows rows)⟩]
  else []

/-- Modelled from the spec: `detect_anomalies_and_drift` from
`tools/data_tools.py` (not among the available sources).  `current` is the
profile the Detector computes (or reuses) for the current file and `rows`
are the current file's rows; with no baseline, steps 1 and 2 are skipped
and only duplicate detection runs. -/
def detect_anomalies_and_drift (current : Profile) (rows : List (List String))
    (baseline : Option Profile) : List Anomaly :=
  (match baseline with
   | Option.none => []
   | some b => schemaDriftAnomalies b current ++ distributionShiftAnomalies b current)
  ++ duplicateAnomalies rows

/-! ## Repair Engine (spec section 4.4)

`sync_tables` lives in `tools/data_tools.py`, which is not among the
available sources, so it is modelled from the specification. -/

/-- Modelled from the spec: the sentinel used when schema alignment fills
a missing cell. -/
def FILL_SENTINEL : String := ""

/-- Modelled from the spec: schema alignment of one row — every row gets a
cell for every declared column, missing trailing cells filled with the
sentinel. -/
def alignRow (ncols : Nat) (row : List String) : List String :=
  row ++ List.replicate (ncols - row.length) FILL_SENTINEL

/-- Modelled from the spec: the deterministically derived output location
of the Repair Engine; distinct from the input path. -/
def cleanedPathFor (path : String) : String :=
  path ++ "_cleaned.csv"

/-- Modelled from the spec: `sync_tables` from `tools/data_tools.py` (not
among the available sources).  Removes exact-duplicate rows keeping the
first occurrence in stable order, aligns the schema, and writes the result
to a new derived path; returns the new path together with the cleaned
dataset contents. -/
def sync_tables (path : String) (d : Dataset) : String × Dataset :=
  (cleanedPathFor path,
   { header := d.header,
     rows := (dedupKeepFirst d.rows).map (alignRow d.header.length) })

theorem alignRow_of_full (ncols : Nat) (row : List String)
    (h : row.length = ncols) : alignRow ncols row = row := by
  simp [alignRow, h]

theorem cleanedPathFor_ne (path : String) : cleanedPathFor path ≠ path := by
  intro h
  have hlen : (cleanedPathFor path).length = path.length := by rw [h]
  rw [cleanedPathFor, String.length_append] at hlen
  have h12 : ("_cleaned.csv" : String).length = 12 := by decide
  omega

/-! ## Timestamps

`ReportingAgent.act` stamps the report with
`datetime.datetime.utcnow().isoformat()`.  `DateTime` models the capture
time (already in UTC, as `utcnow` returns) and `DateTime.isoformat`
reproduces CPython's rendering: `YYYY-MM-DDTHH:MM:SS` followed by
`.ffffff` exactly when the microsecond field is nonzero. -/

structure DateTime where
  year : Nat
  month : Nat
  day : Nat
  hour : Nat
  minute : Nat
  second : Nat
  microsecond : Nat
deriving DecidableEq, Repr

/-- The decimal digit character for `n % 10`. -/
def digitChar (n : Nat) : Char :=
  match n % 10 with
  | 0 => '0' | 1 => '1' | 2 => '2' | 3 => '3' | 4 => '4'
  | 5 => '5' | 6 => '6' | 7 => '7' | 8 => '8' | _ => '9'

/-- Zero-padded two-digit rendering (`%02d` for values below 100). -/
def pad2 (n : Nat) : List Char := [digitChar (n / 10), digitChar n]

/-- Zero-padded four-digit rendering (`%04d` for values below 10000). -/
def pad4 (n : Nat) : List Char :=
  [digitChar (n / 1000), digitChar (n / 100), digitChar (n / 10), digitChar n]

/-- Zero-padded six-digit rendering (`%06d` for values below 1000000). -/
def pad6 (n : Nat) : List Char :=
  [digitChar (n / 100000), digitChar (n / 10000), digitChar (n / 1000),
   digitChar (n / 100), digitChar (n / 10), digitChar n]

/-- CPython's `datetime.isoformat()` with the default separator. -/
def DateTime.isoformat (t : DateTime) : String :=
  ⟨pad4 t.year ++ '-' :: pad2 t.month ++ '-' :: pad2 t.day ++
   'T' :: pad2 t.hour ++ ':' :: pad2 t.minute ++ ':' :: pad2 t.second ++
   (if t.microsecond = 0 then [] else '.' :: pad6 t.microsecond)⟩

/-- Decimal-digit test on a character. -/
def isDigitCh (c : Char) : Bool := 48 ≤ c.toNat && c.toNat ≤ 57

/-- Numeric value of a two-digit character pair. -/
def twoDigitVal (a b : Char) : Nat := 10 * (a.toNat - 48) + (b.toNat - 48)

/-- ISO-8601 instant checker: `YYYY-MM-DDTHH:MM:SS` with an optional
six-digit fractional-second part, with the calendar and clock fields in
range.  Written independently of `DateTime.isoformat`, over the raw
character list. -/
def isISO8601Instant (s : String) : Bool :=
  match s.data with
  | y1 :: y2 :: y3 :: y4 :: c1 :: mo1 :: mo2 :: c2 :: d1 :: d2 :: c3 ::
      h1 :: h2 :: c4 :: mi1 :: mi2 :: c5 :: se1 :: se2 :: rest =>
    isDigitCh y1 && isDigitCh y2 && isDigitCh y3 && isDigitCh y4 &&
    isDigitCh mo1 && isDigitCh mo2 && isDigitCh d1 && isDigitCh d2 &&
    isDigitCh h1 && isDigitCh h2 && isDigitCh mi1 && isDigitCh mi2 &&
    isDigitCh se1 && isDigitCh se2 &&
    (c1 == '-') && (c2 == '-') && (c3 == 'T') && (c4 == ':') && (c5 == ':') &&
    decide (1 ≤ twoDigitVal mo1 mo2) && decide (twoDigitVal mo1 mo2 ≤ 12) &&
    decide (1 ≤ twoDigitVal d1 d2) && decide (twoDigitVal d1 d2 ≤ 31) &&
    decide (twoDigitVal h1 h2 ≤ 23) && decide (twoDigitVal mi1 mi2 ≤ 59) &&
    decide (twoDigitVal se1 se2 ≤ 59) &&
    (rest.isEmpty ||
      ((rest.head? == some '.') && rest.length == 7 &&
        (rest.drop 1).all isDigitCh))
  | _ => false

theorem digitChar_toNat (n : Nat) : (digitChar n).toNat = 48 + n % 10 := by
  have h : n % 10 < 10 := Nat.mod_lt _ (by omega)
  rcases (show n % 10 = 0 ∨ n % 10 = 1 ∨ n % 10 = 2 ∨ n % 10 = 3 ∨ n % 10 = 4 ∨
      n % 10 = 5 ∨ n % 10 = 6 ∨ n % 10 = 7 ∨ n % 10 = 8 ∨ n % 10 = 9 by omega) with
    h | h | h | h | h | h | h | h | h | h <;>
    simp [digitChar, h]

theorem isDigitCh_digitChar (n : Nat) : isDigitCh (digitChar n) = true := by
  have h := digitChar_toNat n
  have hm : n % 10 < 10 := Nat.mod_lt _ (by omega)
  simp only [isDigitCh, h, Bool.and_eq_true, decide_eq_true_eq]
  omega

theorem twoDigitVal_pad (n : Nat) (h : n ≤ 99) :
    twoDigitVal (digitChar (n / 10)) (digitChar n) = n := by
  have h1 := digitChar_toNat (n / 10)
  have h2 := digitChar_toNat n
  have hd : n / 10 % 10 = n / 10 := Nat.mod_eq_of_lt (by omega)
  simp only [twoDigitVal, h1, h2, hd]
  omega

theorem isoformat_isISO8601 (t : DateTime)
    (hmo1 : 1 ≤ t.month) (hmo2 : t.month ≤ 12)
    (hd1 : 1 ≤ t.day) (hd2 : t.day ≤ 31)
    (hh : t.hour ≤ 23) (hmi : t.minute ≤ 59) (hs : t.second ≤ 59) :
    isISO8601Instant t.isoformat = true := by
  obtain ⟨y, mo, d, h, mi, se, us⟩ := t
  simp only at hmo1 hmo2 hd1 hd2 hh hmi hs
  have emo := twoDigitVal_pad mo (by omega)
  have ed := twoDigitVal_pad d (by omega)
  have eh := twoDigitVal_pad h (by omega)
  have emi := twoDigitVal_pad mi (by omega)
  have ese := twoDigitVal_pad se (by omega)
  by_cases hus : us = 0
  · subst hus
    have hif : (if (0 : Nat) = 0 then ([] : List Char) else '.' :: pad6 0) = [] := rfl
    simp only [DateTime.isoformat, hif, pad4, pad2,
      List.cons_append, List.nil_append, List.append_nil]
    simp only [isISO8601Instant]
    simp [emo, ed, eh, emi, ese, isDigitCh_digitChar]
    all_goals omega
  · simp only [DateTime.isoformat, pad4, pad2, pad6, if_neg hus,
      List.cons_append, List.nil_append, List.append_nil]
    simp only [isISO8601Instant]
    simp [emo, ed, eh, emi, ese, isDigitCh_digitChar]
    all_goals omega

/-! ## Stage agents (src/agents/agents.py)

Each `act` method reads the request's file path, calls its tool from
`tools/data_tools.py`, and stores the result under its own session-state
key.  The tool functions are passed in as explicit collaborators (their
bodies are not among the available sources); the session state is the
`Dict` defined above.  Each embedding returns the updated session state
together with the value the method returns. -/

/-- Coerce a session-state entry to a baseline profile, as
`DriftAnomalyAgent.act` hands `session.state.get("baseline_profile")`
(possibly `None`) to the detector. -/
def asProfile : Option Value → Option Profile
  | some (Value.profile p) => some p
  | _ => Option.none

/-- `DataProfilerAgent.act`: profile the dataset, store it under
`profile`. -/
def DataProfilerAgent.act (profile_data : String → Profile)
    (file_path : String) (s : Dict) : Dict × Value :=
  let profile := profile_data file_path
  (dictSet s "profile" (Value.profile profile), Value.profile profile)

/-- `DriftAnomalyAgent.act`: read `baseline_profile` from session state,
run the detector, store the anomalies under `anomalies`. -/
def DriftAnomalyAgent.act (detectTool : String → Option Profile → List Anomaly)
    (file_path : String) (s : Dict) : Dict × Value :=
  let baseline := asProfile (dictGet s "baseline_profile")
  let anomalies := detectTool file_path baseline
  (dictSet s "anomalies" (Value.anomalies anomalies), Value.anomalies anomalies)

/-- `ComplianceAgent.act`: scan for PII, store the issues under
`compliance_issues`. -/
def ComplianceAgent.act (detect_pii : String → List ComplianceIssue)
    (file_path : String) (s : Dict) : Dict × Value :=
  let issues := detect_pii file_path
  (dictSet s "compliance_issues" (Value.issues issues), Value.issues issues)

/-- `SyncRepairAgent.act`: repair the dataset, store the cleaned file's
path under `cleaned_path`. -/
def SyncRepairAgent.act (syncTool : String → String)
    (file_path : String) (s : Dict) : Dict × Value :=
  let cleaned_path := syncTool file_path
  (dictSet s "cleaned_path" (Value.str cleaned_path), Value.str cleaned_path)

/-- Result of `ReportingAgent.act`: the updated session state, the report
dict it builds, and the path the report was persisted to. -/
structure ReportingResult where
  state : Dict
  report : Dict
  report_path : String
deriving DecidableEq, Repr

/-- `ReportingAgent.act`: read the four upstream results from session
state with `dict.get` (missing keys default to `None`), obtain the
lineage from `generate_lineage_graph()`, build the report dict with a
fresh UTC timestamp, persist it, and store the returned path under
`report_path`. -/
def ReportingAgent.act (now : DateTime) (generate_lineage_graph : Value)
    (save_governance_report : Dict → String) (s : Dict) : ReportingResult :=
  let profile := dictGetD s "profile"
  let anomalies := dictGetD s "anomalies"
  let issues := dictGetD s "compliance_issues"
  let cleaned_path := dictGetD s "cleaned_path"
  let lineage := generate_lineage_graph
  let report : Dict :=
    [("timestamp", Value.str now.isoformat),
     ("profile", profile),
     ("anomalies", anomalies),
     ("compliance_issues", issues),
     ("cleaned_path", cleaned_path),
     ("lineage", lineage)]
  let report_path := save_governance_report report
  { state := dictSet s "report_path" (Value.str report_path),
    report := report,
    report_path := report_path }

/-! ## Orchestrators (src/agents/agents.py)

`create_eagle_agent` builds a `SequentialAgent` over the five stage
agents; `create_llm_eagle_agent` builds the LLM-driven variant with the
same five stages.  `SequentialAgent` itself belongs to the external
Google ADK. -/

/-- Which of the five stage behaviours a sub-agent carries. -/
inductive StageTag where
  | dataProfiler
  | driftAnomaly
  | compliance
  | syncRepair
  | reporting
deriving DecidableEq, Repr

/-- A sub-agent as the orchestrator sees it: its name, description and
stage behaviour. -/
structure AgentInst where
  name : String
  description : String
  tag : StageTag
deriving DecidableEq, Repr

/-- The external orchestrator class: name, description, ordered
sub-agents. -/
structure SequentialAgent where
  name : String
  description : String
  sub_agents : List AgentInst
deriving DecidableEq, Repr

/-- A raised Python exception. -/
inductive PyError where
  | runtimeError (msg : String)
deriving DecidableEq, Repr

/-- The deterministic orchestrator body built by `create_eagle_agent`. -/
def eagleAgent : SequentialAgent :=
  { name := "EagleAgent",
    description := "Master orchestrator that profiles data, detects drift & anomalies, checks compliance, repairs data, and reports.",
    sub_agents :=
      [⟨"DataProfiler", "Generate statistical and structural profiles for a dataset.", StageTag.dataProfiler⟩,
       ⟨"DriftAnomaly", "Detect schema drift, distribution shifts, and duplicate records.", StageTag.driftAnomaly⟩,
       ⟨"Compliance", "Identify PII exposures and policy violations.", StageTag.compliance⟩,
       ⟨"SyncRepair", "Remove duplicate rows and align schema.", StageTag.syncRepair⟩,
       ⟨"Reporting", "Compile results into a governance report.", StageTag.reporting⟩] }

/-- The LLM orchestrator body built by `create_llm_eagle_agent`. -/
def eagleAgentLLM : SequentialAgent :=
  { name := "EagleAgentLLM",
    description := "Sequential orchestrator that profiles data, detects drift & anomalies, checks compliance, cleans data, and generates a governance report.",
    sub_agents :=
      [⟨"DataProfilerLLM", "Profiles a dataset by generating statistical and structural metadata.", StageTag.dataProfiler⟩,
       ⟨"DriftAnomalyLLM", "Detects schema drift, distribution shifts, and duplicate records by comparing a dataset to a baseline profile.", StageTag.driftAnomaly⟩,
       ⟨"ComplianceLLM", "Scans the dataset for unmasked email addresses and other PII violations.", StageTag.compliance⟩,
       ⟨"SyncRepairLLM", "Cleans the current dataset by removing duplicate rows and aligning the schema.", StageTag.syncRepair⟩,
       ⟨"ReportingLLM", "Compiles profiling, anomaly, compliance, and repair results into a governance report.", StageTag.reporting⟩] }

/-- `create_eagle_agent`: when the ADK import succeeded the module defines
the real constructor, which re-checks the availability flag before
returning the orchestrator; when the import failed the module instead
defines a stub that always raises `RuntimeError`. -/
def create_eagle_agent (adkAvailable : Bool) : Except PyError SequentialAgent :=
  if adkAvailable then
    if !adkAvailable then
      Except.error (PyError.runtimeError
        "Google ADK is not available. Install google-adk to use agents.")
    else Except.ok eagleAgent
  else
    Except.error (PyError.runtimeError
      "Google ADK is not available. Install google-adk to use agents.")

/-- `create_llm_eagle_agent`: defined when the ADK import succeeded;
otherwise the module defines a stub that always raises `RuntimeError`.
`model_name` is the Gemini model identifier argument. -/
def create_llm_eagle_agent (adkAvailable : Bool) (model_name : String) :
    Except PyError SequentialAgent :=
  if adkAvailable then Except.ok eagleAgentLLM
  else
    Except.error (PyError.runtimeError
      "Google ADK is not available. Install google-adk to use LLM agents.")

/-- The tool collaborators a pipeline run is wired with. -/
structure PipelineTools where
  profile_data : String → Profile
  detectTool : String → Option Profile → List Anomaly
  detect_pii : String → List ComplianceIssue
  syncTool : String → String
  lineage : Value
  saveReport : Dict → String
  now : DateTime

/-- The session-state transformation one sub-agent performs. -/
def stageStep (T : PipelineTools) (fp : String) : StageTag → Dict → Dict
  | StageTag.dataProfiler, s => (DataProfilerAgent.act T.profile_data fp s).1
  | StageTag.driftAnomaly, s => (DriftAnomalyAgent.act T.detectTool fp s).1
  | StageTag.compliance, s => (ComplianceAgent.act T.detect_pii fp s).1
  | StageTag.syncRepair, s => (SyncRepairAgent.act T.syncTool fp s).1
  | StageTag.reporting, s => (ReportingAgent.act T.now T.lineage T.saveReport s).state

/-- Modelled from the spec: the execution model of the external
`SequentialAgent` — single-threaded, each sub-agent running to completion
on the shared session state before the next begins, in list order. -/
def runSequential (T : PipelineTools) (fp : String)
    (agent : SequentialAgent) (s : Dict) : Dict :=
  agent.sub_agents.foldl (fun st a => stageStep T fp a.tag st) s

/-! ## Claim theorems -/

/-- Claim C1: for every run, the governance report produced by the
Reporting stage contains exactly the six top-level keys `timestamp`,
`profile`, `anomalies`, `compliance_issues`, `cleaned_path`, `lineage`
(in that order), its `timestamp` value is the isoformat rendering of the
UTC capture time, and that rendering is parseable as an ISO-8601
instant.  The field-range hypotheses are the invariants Python's
`datetime` guarantees for `utcnow()`. -/
theorem reporting_report_six_keys_and_timestamp
    (now : DateTime) (lineage : Value) (save : Dict → String) (s : Dict)
    (hmo1 : 1 ≤ now.month) (hmo2 : now.month ≤ 12)
    (hd1 : 1 ≤ now.day) (hd2 : now.day ≤ 31)
    (hh : now.hour ≤ 23) (hmi : now.minute ≤ 59) (hs : now.second ≤ 59) :
    ((ReportingAgent.act now lineage save s).report.map Prod.fst =
      ["timestamp", "profile", "anomalies", "compliance_issues",
       "cleaned_path", "lineage"])
    ∧ dictGet (ReportingAgent.act now lineage save s).report "timestamp" =
        some (Value.str now.isoformat)
    ∧ isISO8601Instant now.isoformat = true := by
  refine ⟨rfl, ?_, isoformat_isISO8601 now hmo1 hmo2 hd1 hd2 hh hmi hs⟩
  rw [show (ReportingAgent.act now lineage save s).report =
    ("timestamp", Value.str now.isoformat) ::
      [("profile", dictGetD s "profile"),
       ("anomalies", dictGetD s "anomalies"),
       ("compliance_issues", dictGetD s "compliance_issues"),
       ("cleaned_path", dictGetD s "cleaned_path"),
       ("lineage", lineage)] from rfl, dictGet_cons]
  simp

/-- Witness for C1 at a concrete capture time, lineage and session. -/
theorem reporting_report_six_keys_and_timestamp_witness :
    ((ReportingAgent.act ⟨2025, 10, 12, 3, 4, 5, 6⟩ (Value.str "lineage")
        (fun _ => "reports/governance_report.json") ([] : Dict)).report.map Prod.fst =
      ["timestamp", "profile", "anomalies", "compliance_issues",
       "cleaned_path", "lineage"])
    ∧ dictGet (ReportingAgent.act ⟨2025, 10, 12, 3, 4, 5, 6⟩ (Value.str "lineage")
        (fun _ => "reports/governance_report.json") ([] : Dict)).report "timestamp" =
        some (Value.str (DateTime.isoformat ⟨2025, 10, 12, 3, 4, 5, 6⟩))
    ∧ isISO8601Instant (DateTime.isoformat ⟨2025, 10, 12, 3, 4, 5, 6⟩) = true :=
  reporting_report_six_keys_and_timestamp ⟨2025, 10, 12, 3, 4, 5, 6⟩
    (Value.str "lineage") (fun _ => "reports/governance_report.json") []
    (by decide) (by decide) (by decide) (by decide) (by decide) (by decide) (by decide)

/-- Claim C2: `create_eagle_agent` assembles the orchestrator with the
five stage agents in the order Profiler, Drift & Anomaly Detector, PII
Scanner, Repair Engine, Report Compiler, and the sequential execution
model runs each stage to completion on the shared state before the next
begins: a full run equals the strict function composition of the five
`act` steps in that order. -/
theorem eagle_pipeline_sequential_order :
    create_eagle_agent true = Except.ok eagleAgent
    ∧ eagleAgent.sub_agents.map AgentInst.name =
        ["DataProfiler", "DriftAnomaly", "Compliance", "SyncRepair", "Reporting"]
    ∧ eagleAgent.sub_agents.map AgentInst.tag =
        [StageTag.dataProfiler, StageTag.driftAnomaly, StageTag.compliance,
         StageTag.syncRepair, StageTag.reporting]
    ∧ ∀ (T : PipelineTools) (fp : String) (s : Dict),
        runSequential T fp eagleAgent s =
          (ReportingAgent.act T.now T.lineage T.saveReport
            (SyncRepairAgent.act T.syncTool fp
              (ComplianceAgent.act T.detect_pii fp
                (DriftAnomalyAgent.act T.detectTool fp
                  (DataProfilerAgent.act T.profile_data fp s).1).1).1).1).state :=
  ⟨rfl, rfl, rfl, fun _ _ _ => rfl⟩

/-- Claim C3: invoking the Detector with an absent baseline never raises
(the embedded detector is a total function); it degrades to exactly the
duplicate-detection step, so every anomaly it returns is a
`duplicate-rows` anomaly. -/
theorem detector_degrades_without_baseline
    (current : Profile) (rows : List (List String)) :
    detect_anomalies_and_drift current rows Option.none = duplicateAnomalies rows
    ∧ ∀ a ∈ detect_anomalies_and_drift current rows Option.none,
        a.kind = AnomalyKind.duplicateRows := by
  constructor
  · rfl
  · intro a ha
    rw [show detect_anomalies_and_drift current rows Option.none =
      duplicateAnomalies rows from rfl] at ha
    unfold duplicateAnomalies at ha
    split at ha
    · rcases List.mem_singleton.mp ha with rfl
      rfl
    · cases ha

/-- Claim C10: when the Google ADK import fails, both orchestrator
constructors raise `RuntimeError` and neither ever returns an
orchestrator object. -/
theorem create_agents_raise_without_adk (model_name : String) :
    create_eagle_agent false =
      Except.error (PyError.runtimeError
        "Google ADK is not available. Install google-adk to use agents.")
    ∧ create_llm_eagle_agent false model_name =
        Except.error (PyError.runtimeError
          "Google ADK is not available. Install google-adk to use LLM agents.")
    ∧ (∀ o, create_eagle_agent false ≠ Except.ok o)
    ∧ (∀ o, create_llm_eagle_agent false model_name ≠ Except.ok o) := by
  refine ⟨rfl, rfl, fun o h => ?_, fun o h => ?_⟩
  · rw [show create_eagle_agent false = Except.error (PyError.runtimeError
      "Google ADK is not available. Install google-adk to use agents.") from rfl] at h
    exact Except.noConfusion h
  · rw [show create_llm_eagle_agent false model_name =
      Except.error (PyError.runtimeError
        "Google ADK is not available. Install google-adk to use LLM agents.") from rfl] at h
    exact Except.noConfusion h

/-- Claim C4: the Report Compiler is a pure aggregation — the report's
`profile`, `anomalies`, `compliance_issues` and `cleaned_path` fields
equal exactly the values stored in the run context by the upstream
stages, and its `lineage` field equals exactly the value returned by the
lineage collaborator. -/
theorem reporting_pure_aggregation
    (now : DateTime) (lineage : Value) (save : Dict → String) (s : Dict)
    (vp va vi vc : Value)
    (hp : dictGet s "profile" = some vp)
    (ha : dictGet s "anomalies" = some va)
    (hi : dictGet s "compliance_issues" = some vi)
    (hc : dictGet s "cleaned_path" = some vc) :
    dictGet (ReportingAgent.act now lineage save s).report "profile" = some vp
    ∧ dictGet (ReportingAgent.act now lineage save s).report "anomalies" = some va
    ∧ dictGet (ReportingAgent.act now lineage save s).report "compliance_issues" = some vi
    ∧ dictGet (ReportingAgent.act now lineage save s).report "cleaned_path" = some vc
    ∧ dictGet (ReportingAgent.act now lineage save s).report "lineage" = some lineage := by
  have hrep : (ReportingAgent.act now lineage save s).report =
      [("timestamp", Value.str now.isoformat),
       ("profile", dictGetD s "profile"),
       ("anomalies", dictGetD s "anomalies"),
       ("compliance_issues", dictGetD s "compliance_issues"),
       ("cleaned_path", dictGetD s "cleaned_path"),
       ("lineage", lineage)] := rfl
  rw [hrep]
  simp only [dictGet_cons, dictGetD, hp, ha, hi, hc, Option.getD_some]
  refine ⟨?_, ?_, ?_, ?_, ?_⟩ <;> simp

/-- Witness for C4 on a concrete, fully populated run context. -/
theorem reporting_pure_aggregation_witness :
    dictGet (ReportingAgent.act ⟨2025, 10, 12, 3, 4, 5, 6⟩ (Value.str "lineage")
        (fun _ => "reports/governance_report.json")
        [("profile", Value.profile ⟨2, []⟩),
         ("anomalies", Value.anomalies []),
         ("compliance_issues", Value.issues []),
         ("cleaned_path", Value.str "data/current_cleaned.csv")]).report "profile"
      = some (Value.profile ⟨2, []⟩)
    ∧ dictGet (ReportingAgent.act ⟨2025, 10, 12, 3, 4, 5, 6⟩ (Value.str "lineage")
        (fun _ => "reports/governance_report.json")
        [("profile", Value.profile ⟨2, []⟩),
         ("anomalies", Value.anomalies []),
         ("compliance_issues", Value.issues []),
         ("cleaned_path", Value.str "data/current_cleaned.csv")]).report "anomalies"
      = some (Value.anomalies [])
    ∧ dictGet (ReportingAgent.act ⟨2025, 10, 12, 3, 4, 5, 6⟩ (Value.str "lineage")
        (fun _ => "reports/governance_report.json")
        [("profile", Value.profile ⟨2, []⟩),
         ("anomalies", Value.anomalies []),
         ("compliance_issues", Value.issues []),
         ("cleaned_path", Value.str "data/current_cleaned.csv")]).report "compliance_issues"
      = some (Value.issues [])
    ∧ dictGet (ReportingAgent.act ⟨2025, 10, 12, 3, 4, 5, 6⟩ (Value.str "lineage")
        (fun _ => "reports/governance_report.json")
        [("profile", Value.profile ⟨2, []⟩),
         ("anomalies", Value.anomalies []),
         ("compliance_issues", Value.issues []),
         ("cleaned_path", Value.str "data/current_cleaned.csv")]).report "cleaned_path"
      = some (Value.str "data/current_cleaned.csv")
    ∧ dictGet (ReportingAgent.act ⟨2025, 10, 12, 3, 4, 5, 6⟩ (Value.str "lineage")
        (fun _ => "reports/governance_report.json")
        [("profile", Value.profile ⟨2, []⟩),
         ("anomalies", Value.anomalies []),
         ("compliance_issues", Value.issues []),
         ("cleaned_path", Value.str "data/current_cleaned.csv")]).report "lineage"
      = some (Value.str "lineage") :=
  reporting_pure_aggregation ⟨2025, 10, 12, 3, 4, 5, 6⟩ (Value.str "lineage")
    (fun _ => "reports/governance_report.json") _ _ _ _ _
    (by decide) (by decide) (by decide) (by decide)

/-- Claim C5 counterexample: with `profile` absent from the run context,
the Reporting stage does not raise — `session.state.get("profile")`
defaults to `None` and a report is still produced, with its `profile`
field silently set to `None`.  This refutes "the Report Compiler does not
catch or mask a missing `profile`". -/
theorem reporting_masks_missing_profile_cex :
    dictGet ([] : Dict) "profile" = Option.none
    ∧ dictGet (ReportingAgent.act ⟨2025, 10, 12, 3, 4, 5, 0⟩ (Value.str "lineage")
        (fun _ => "reports/governance_report.json") ([] : Dict)).report "profile"
        = some Value.none
    ∧ (ReportingAgent.act ⟨2025, 10, 12, 3, 4, 5, 0⟩ (Value.str "lineage")
        (fun _ => "reports/governance_report.json") ([] : Dict)).report_path
        = "reports/governance_report.json" := by
  refine ⟨rfl, ?_, rfl⟩
  decide

/-- Claim C5 (amended): the Reporting stage reads every upstream key with
a defaulting `dict.get`; whenever `profile` is missing from the run
context it does not raise and instead emits a report whose `profile`
field is `None`. -/
theorem reporting_defaults_missing_profile
    (now : DateTime) (lineage : Value) (save : Dict → String) (s : Dict)
    (hp : dictGet s "profile" = Option.none) :
    dictGet (ReportingAgent.act now lineage save s).report "profile" =
      some Value.none := by
  have hrep : (ReportingAgent.act now lineage save s).report =
      [("timestamp", Value.str now.isoformat),
       ("profile", dictGetD s "profile"),
       ("anomalies", dictGetD s "anomalies"),
       ("compliance_issues", dictGetD s "compliance_issues"),
       ("cleaned_path", dictGetD s "cleaned_path"),
       ("lineage", lineage)] := rfl
  rw [hrep]
  simp only [dictGet_cons, dictGetD, hp, Option.getD_none]
  simp

/-- Witness for the amended C5 on an empty run context. -/
theorem reporting_defaults_missing_profile_witness :
    dictGet (ReportingAgent.act ⟨2026, 1, 2, 3, 4, 5, 6⟩ Value.none
        (fun _ => "reports/governance_report.json") ([] : Dict)).report "profile" =
      some Value.none :=
  reporting_defaults_missing_profile ⟨2026, 1, 2, 3, 4, 5, 6⟩ Value.none
    (fun _ => "reports/governance_report.json") [] (by decide)

/-- Claim C6: each stage writes exactly the run-context key it owns
(Profiler `profile`, Detector `anomalies`, PII Scanner
`compliance_issues`, Repair `cleaned_path`, Reporting `report_path`) and
leaves every other key of the shared context unchanged — including the
keys owned by the other stages. -/
theorem stages_write_only_owned_keys
    (profile_data : String → Profile)
    (detectTool : String → Option Profile → List Anomaly)
    (detect_pii : String → List ComplianceIssue)
    (syncTool : String → String)
    (now : DateTime) (lineage : Value) (save : Dict → String)
    (fp : String) (s : Dict) :
    (dictGet (DataProfilerAgent.act profile_data fp s).1 "profile" =
        some (Value.profile (profile_data fp))
      ∧ ∀ k, k ≠ "profile" →
          dictGet (DataProfilerAgent.act profile_data fp s).1 k = dictGet s k)
    ∧ (dictGet (DriftAnomalyAgent.act detectTool fp s).1 "anomalies" =
        some (Value.anomalies (detectTool fp (asProfile (dictGet s "baseline_profile"))))
      ∧ ∀ k, k ≠ "anomalies" →
          dictGet (DriftAnomalyAgent.act detectTool fp s).1 k = dictGet s k)
    ∧ (dictGet (ComplianceAgent.act detect_pii fp s).1 "compliance_issues" =
        some (Value.issues (detect_pii fp))
      ∧ ∀ k, k ≠ "compliance_issues" →
          dictGet (ComplianceAgent.act detect_pii fp s).1 k = dictGet s k)
    ∧ (dictGet (SyncRepairAgent.act syncTool fp s).1 "cleaned_path" =
        some (Value.str (syncTool fp))
      ∧ ∀ k, k ≠ "cleaned_path" →
          dictGet (SyncRepairAgent.act syncTool fp s).1 k = dictGet s k)
    ∧ (dictGet (ReportingAgent.act now lineage save s).state "report_path" =
        some (Value.str (ReportingAgent.act now lineage save s).report_path)
      ∧ ∀ k, k ≠ "report_path" →
          dictGet (ReportingAgent.act now lineage save s).state k = dictGet s k) :=
  ⟨⟨dictGet_dictSet_self s _ _, fun k hk => dictGet_dictSet_other s _ k _ hk⟩,
   ⟨dictGet_dictSet_self s _ _, fun k hk => dictGet_dictSet_other s _ k _ hk⟩,
   ⟨dictGet_dictSet_self s _ _, fun k hk => dictGet_dictSet_other s _ k _ hk⟩,
   ⟨dictGet_dictSet_self s _ _, fun k hk => dictGet_dictSet_other s _ k _ hk⟩,
   ⟨dictGet_dictSet_self s _ _, fun k hk => dictGet_dictSet_other s _ k _ hk⟩⟩

/-- Witness for C6 at concrete tools on a populated run context,
exercising the inter-stage frame: the Profiler leaves `anomalies`
untouched, the Detector, PII Scanner and Reporting leave `profile`
untouched, the Repair stage leaves `anomalies` untouched, and Reporting
also leaves the bystander key `baseline_profile` untouched. -/
theorem stages_write_only_owned_keys_witness :
    dictGet (DataProfilerAgent.act (fun _ => ⟨2, []⟩) "data/current.csv"
        [("baseline_profile", Value.profile ⟨3, []⟩),
         ("profile", Value.profile ⟨2, []⟩),
         ("anomalies", Value.anomalies [])]).1 "profile" =
      some (Value.profile ⟨2, []⟩)
    ∧ dictGet (DataProfilerAgent.act (fun _ => ⟨2, []⟩) "data/current.csv"
        [("baseline_profile", Value.profile ⟨3, []⟩),
         ("profile", Value.profile ⟨2, []⟩),
         ("anomalies", Value.anomalies [])]).1 "anomalies" =
      dictGet [("baseline_profile", Value.profile ⟨3, []⟩),
         ("profile", Value.profile ⟨2, []⟩),
         ("anomalies", Value.anomalies [])] "anomalies"
    ∧ dictGet (DriftAnomalyAgent.act (fun _ _ => []) "data/current.csv"
        [("baseline_profile", Value.profile ⟨3, []⟩),
         ("profile", Value.profile ⟨2, []⟩),
         ("anomalies", Value.anomalies [])]).1 "profile" =
      dictGet [("baseline_profile", Value.profile ⟨3, []⟩),
         ("profile", Value.profile ⟨2, []⟩),
         ("anomalies", Value.anomalies [])] "profile"
    ∧ dictGet (ComplianceAgent.act (fun _ => []) "data/current.csv"
        [("baseline_profile", Value.profile ⟨3, []⟩),
         ("profile", Value.profile ⟨2, []⟩),
         ("anomalies", Value.anomalies [])]).1 "profile" =
      dictGet [("baseline_profile", Value.profile ⟨3, []⟩),
         ("profile", Value.profile ⟨2, []⟩),
         ("anomalies", Value.anomalies [])] "profile"
    ∧ dictGet (SyncRepairAgent.act (fun p => p ++ "_cleaned.csv") "data/current.csv"
        [("baseline_profile", Value.profile ⟨3, []⟩),
         ("profile", Value.profile ⟨2, []⟩),
         ("anomalies", Value.anomalies [])]).1 "anomalies" =
      dictGet [("baseline_profile", Value.profile ⟨3, []⟩),
         ("profile", Value.profile ⟨2, []⟩),
         ("anomalies", Value.anomalies [])] "anomalies"
    ∧ dictGet (ReportingAgent.act ⟨2025, 10, 12, 3, 4, 5, 6⟩ Value.none
        (fun _ => "reports/governance_report.json")
        [("baseline_profile", Value.profile ⟨3, []⟩),
         ("profile", Value.profile ⟨2, []⟩),
         ("anomalies", Value.anomalies [])]).state "profile" =
      dictGet [("baseline_profile", Value.profile ⟨3, []⟩),
         ("profile", Value.profile ⟨2, []⟩),
         ("anomalies", Value.anomalies [])] "profile"
    ∧ dictGet (ReportingAgent.act ⟨2025, 10, 12, 3, 4, 5, 6⟩ Value.none
        (fun _ => "reports/governance_report.json")
        [("baseline_profile", Value.profile ⟨3, []⟩),
         ("profile", Value.profile ⟨2, []⟩),
         ("anomalies", Value.anomalies [])]).state "baseline_profile" =
      dictGet [("baseline_profile", Value.profile ⟨3, []⟩),
         ("profile", Value.profile ⟨2, []⟩),
         ("anomalies", Value.anomalies [])] "baseline_profile" := by
  have H := stages_write_only_owned_keys (fun _ => ⟨2, []⟩) (fun _ _ => [])
    (fun _ => []) (fun p => p ++ "_cleaned.csv") ⟨2025, 10, 12, 3, 4, 5, 6⟩
    Value.none (fun _ => "reports/governance_report.json") "data/current.csv"
    [("baseline_profile", Value.profile ⟨3, []⟩),
     ("profile", Value.profile ⟨2, []⟩),
     ("anomalies", Value.anomalies [])]
  exact ⟨H.1.1, H.1.2 "anomalies" (by decide), H.2.1.2 "profile" (by decide),
    H.2.2.1.2 "profile" (by decide), H.2.2.2.1.2 "anomalies" (by decide),
    H.2.2.2.2.2 "profile" (by decide), H.2.2.2.2.2 "baseline_profile" (by decide)⟩

theorem sync_tables_rows_eq (path : String) (d : Dataset)
    (hwf : ∀ r ∈ d.rows, r.length = d.header.length) :
    (sync_tables path d).2.rows = dedupKeepFirst d.rows := by
  show (dedupKeepFirst d.rows).map (alignRow d.header.length) = dedupKeepFirst d.rows
  have hcongr : ∀ r ∈ dedupKeepFirst d.rows,
      alignRow d.header.length r = id r := fun r hr =>
    alignRow_of_full _ _ (hwf r ((mem_dedupKeepFirst r d.rows).mp hr))
  rw [List.map_congr_left hcongr, List.map_id]

/-- Claim C7: for a (well-formed) dataset containing duplicate rows, the
Repair Engine's cleaned output has no two exact-duplicate rows, is a
stable-order sub-sequence of the original keeping every row's first
occurrence, preserves the column set, has row count at most the
original's, and is written to a new path distinct from the original. -/
theorem sync_tables_removes_duplicates (path : String) (d : Dataset)
    (hwf : ∀ r ∈ d.rows, r.length = d.header.length)
    (hdup : ¬ d.rows.Nodup) :
    (sync_tables path d).2.rows.Nodup
    ∧ (sync_tables path d).2.rows.Sublist d.rows
    ∧ (∀ r ∈ d.rows, r ∈ (sync_tables path d).2.rows)
    ∧ (∀ l₁ r l₂, d.rows = l₁ ++ r :: l₂ → r ∉ l₁ →
        ∃ t, (sync_tables path d).2.rows = dedupKeepFirst l₁ ++ r :: t)
    ∧ (sync_tables path d).2.header = d.header
    ∧ (sync_tables path d).2.rows.length < d.rows.length
    ∧ (sync_tables path d).1 ≠ path := by
  have hrows := sync_tables_rows_eq path d hwf
  refine ⟨?_, ?_, ?_, ?_, rfl, ?_, cleanedPathFor_ne path⟩
  · rw [hrows]; exact nodup_dedupKeepFirst d.rows
  · rw [hrows]; exact dedupKeepFirst_sublist d.rows
  · intro r hr
    rw [hrows]
    exact (mem_dedupKeepFirst r d.rows).mpr hr
  · intro l₁ r l₂ hsplit hnot
    rw [hrows, hsplit]
    exact dedupKeepFirst_first_occ l₁ r l₂ hnot
  · rw [hrows]
    by_contra hlt
    have hge : d.rows.length ≤ (dedupKeepFirst d.rows).length := Nat.le_of_not_lt hlt
    have hlen : (dedupKeepFirst d.rows).length = d.rows.length :=
      Nat.le_antisymm (dedupKeepFirst_length_le d.rows) hge
    have heq := (dedupKeepFirst_sublist d.rows).eq_of_length hlen
    exact hdup (heq ▸ nodup_dedupKeepFirst d.rows)

/-- Witness for C7 on a concrete dataset with one duplicated row. -/
theorem sync_tables_removes_duplicates_witness :
    (sync_tables "data/current.csv"
        ⟨["id", "email"], [["1", "a"], ["1", "a"], ["2", "b"]]⟩).2.rows.Nodup
    ∧ (sync_tables "data/current.csv"
        ⟨["id", "email"], [["1", "a"], ["1", "a"], ["2", "b"]]⟩).2.rows.Sublist
        [["1", "a"], ["1", "a"], ["2", "b"]]
    ∧ (∀ r ∈ [["1", "a"], ["1", "a"], ["2", "b"]],
        r ∈ (sync_tables "data/current.csv"
          ⟨["id", "email"], [["1", "a"], ["1", "a"], ["2", "b"]]⟩).2.rows)
    ∧ (∀ l₁ r l₂, [["1", "a"], ["1", "a"], ["2", "b"]] = l₁ ++ r :: l₂ → r ∉ l₁ →
        ∃ t, (sync_tables "data/current.csv"
          ⟨["id", "email"], [["1", "a"], ["1", "a"], ["2", "b"]]⟩).2.rows =
            dedupKeepFirst l₁ ++ r :: t)
    ∧ (sync_tables "data/current.csv"
        ⟨["id", "email"], [["1", "a"], ["1", "a"], ["2", "b"]]⟩).2.header = ["id", "email"]
    ∧ (sync_tables "data/current.csv"
        ⟨["id", "email"], [["1", "a"], ["1", "a"], ["2", "b"]]⟩).2.rows.length <
        ([["1", "a"], ["1", "a"], ["2", "b"]] : List (List String)).length
    ∧ (sync_tables "data/current.csv"
        ⟨["id", "email"], [["1", "a"], ["1", "a"], ["2", "b"]]⟩).1 ≠ "data/current.csv" :=
  sync_tables_removes_duplicates "data/current.csv"
    ⟨["id", "email"], [["1", "a"], ["1", "a"], ["2", "b"]]⟩
    (by decide) (by decide)

/-- Claim C8: repairing a (well-formed) dataset with no exact-duplicate
rows is idempotent — the cleaned dataset equals the original, same rows
in the same order. -/
theorem sync_tables_idempotent_on_nodup (path : String) (d : Dataset)
    (hwf : ∀ r ∈ d.rows, r.length = d.header.length)
    (hnd : d.rows.Nodup) :
    (sync_tables path d).2 = d := by
  have hrows := sync_tables_rows_eq path d hwf
  rw [dedupKeepFirst_of_nodup d.rows hnd] at hrows
  cases d with
  | mk header rows => exact congrArg (Dataset.mk header) hrows

/-- Witness for C8 on a concrete duplicate-free dataset. -/
theorem sync_tables_idempotent_on_nodup_witness :
    (sync_tables "data/current.csv"
        ⟨["id", "email"], [["1", "a"], ["2", "b"]]⟩).2 =
      ⟨["id", "email"], [["1", "a"], ["2", "b"]]⟩ :=
  sync_tables_idempotent_on_nodup "data/current.csv"
    ⟨["id", "email"], [["1", "a"], ["2", "b"]]⟩ (by decide) (by decide)

theorem assoc_find?_eq_of_mem_nodup {β : Type} (l : List (String × β))
    (c : String) (x : β)
    (hnd : (l.map Prod.fst).Nodup) (hmem : (c, x) ∈ l) :
    List.find? (fun kc => kc.1 == c) l = some (c, x) := by
  induction l with
  | nil => cases hmem
  | cons p rest ih =>
    rcases List.mem_cons.mp hmem with h | h
    · subst h
      exact List.find?_cons_of_pos _ (by simp)
    · have hnd2 : (p.1 :: List.map Prod.fst rest).Nodup := by
        simpa using hnd
      have hkeys := List.nodup_cons.mp hnd2
      have hp : ¬ p.1 = c := fun he => hkeys.1 (by
        rw [he]
        exact List.mem_map_of_mem Prod.fst h)
      rw [List.find?_cons_of_neg _ (by simpa using hp)]
      exact ih hkeys.2 h

theorem Profile.find_eq_of_mem_nodup (p : Profile) (c : String) (x : ColumnProfile)
    (hnd : (p.columns.map Prod.fst).Nodup) (hmem : (c, x) ∈ p.columns) :
    p.find c = some x := by
  unfold Profile.find
  rw [assoc_find?_eq_of_mem_nodup p.columns c x hnd hmem]
  rfl

theorem kind_of_mem_schemaDrift (b cur : Profile) (a : Anomaly)
    (h : a ∈ schemaDriftAnomalies b cur) : a.kind = AnomalyKind.schemaDrift := by
  unfold schemaDriftAnomalies at h
  rcases List.mem_append.mp h with h | h
  · rcases List.mem_append.mp h with h | h <;>
      · rcases List.mem_map.mp h with ⟨kc, _, rfl⟩
        rfl
  · rcases List.mem_map.mp h with ⟨kc, _, rfl⟩
    rfl

theorem kind_of_mem_duplicateAnomalies (rows : List (List String)) (a : Anomaly)
    (h : a ∈ duplicateAnomalies rows) : a.kind = AnomalyKind.duplicateRows := by
  unfold duplicateAnomalies at h
  split at h
  · rcases List.mem_singleton.mp h with rfl
    rfl
  · cases h

/-- Claim C9: for a numeric column present in both profiles (with
baseline and current statistics `bs` and `cs`), the Detector reports a
distribution-shift anomaly for that column if and only if the relative
change in mean or in std exceeds the fixed 20% threshold. -/
theorem detector_distribution_shift_iff
    (b cur : Profile) (rows : List (List String)) (c : String)
    (cc bc : ColumnProfile) (cs bs : NumericStats)
    (hnd : (cur.columns.map Prod.fst).Nodup)
    (hc : cur.find c = some cc) (hcs : cc.numeric_stats = some cs)
    (hb : b.find c = some bc) (hbs : bc.numeric_stats = some bs) :
    (∃ a ∈ detect_anomalies_and_drift cur rows (some b),
        a.kind = AnomalyKind.distributionShift ∧ a.column = some c)
    ↔ (DRIFT_THRESHOLD < relChange bs.mean cs.mean
        ∨ DRIFT_THRESHOLD < relChange bs.std cs.std) := by
  have hflag : shiftFlag bs cs = true ↔
      (DRIFT_THRESHOLD < relChange bs.mean cs.mean
        ∨ DRIFT_THRESHOLD < relChange bs.std cs.std) := by
    simp [shiftFlag, gt_iff_lt]
  have hdet : detect_anomalies_and_drift cur rows (some b) =
      (schemaDriftAnomalies b cur ++ distributionShiftAnomalies b cur)
        ++ duplicateAnomalies rows := rfl
  rw [hdet, ← hflag]
  constructor
  · rintro ⟨a, ha, hkind, hcol⟩
    rcases List.mem_append.mp ha with h | h
    · rcases List.mem_append.mp h with h | h
      · have hsch := kind_of_mem_schemaDrift b cur a h
        rw [hkind] at hsch
        cases hsch
      · unfold distributionShiftAnomalies at h
        obtain ⟨kc, hkcmem, hf⟩ := List.mem_filterMap.mp h
        cases hcs2 : kc.2.numeric_stats with
        | none => rw [hcs2, Option.none_bind] at hf; cases hf
        | some cs2 =>
          rw [hcs2, Option.some_bind] at hf
          cases hbf : (Profile.find b kc.1).bind ColumnProfile.numeric_stats with
          | none => rw [hbf, Option.none_bind] at hf; cases hf
          | some bs2 =>
            rw [hbf, Option.some_bind] at hf
            split at hf
            · rename_i hfl
              rcases Option.some.inj hf with rfl
              have hkc1 : kc.1 = c := by
                simpa using hcol
              have hfind : cur.find c = some kc.2 := by
                rw [← hkc1]
                exact Profile.find_eq_of_mem_nodup cur kc.1 kc.2 hnd
                  (by rw [show (kc.1, kc.2) = kc from rfl]; exact hkcmem)
              rw [hc] at hfind
              rcases Option.some.inj hfind with rfl
              rw [hcs] at hcs2
              rcases Option.some.inj hcs2 with rfl
              rw [hkc1, hb] at hbf
              rw [show (some bc).bind ColumnProfile.numeric_stats =
                bc.numeric_stats from rfl, hbs] at hbf
              rcases Option.some.inj hbf with rfl
              exact hfl
            · cases hf
    · have hdupk := kind_of_mem_duplicateAnomalies rows a h
      rw [hkind] at hdupk
      cases hdupk
  · intro hfl
    obtain ⟨kc, hfindkc, hkc2⟩ := Option.map_eq_some'.mp hc
    have hkcmem := List.mem_of_find?_eq_some hfindkc
    have hkc1 : kc.1 = c := by simpa using List.find?_some hfindkc
    refine ⟨⟨AnomalyKind.distributionShift, some c, "distribution shift: " ++ c⟩,
      ?_, rfl, rfl⟩
    refine List.mem_append.mpr (Or.inl (List.mem_append.mpr (Or.inr ?_)))
    unfold distributionShiftAnomalies
    refine List.mem_filterMap.mpr ⟨kc, hkcmem, ?_⟩
    simp only [hkc2, hcs, hkc1, hb, Option.some_bind, hbs]
    rw [if_pos hfl]

/-- Witness for C9: with baseline mean 10.0 and std 1.0 for column `x`, a
current mean of 13.0 (30% change) is flagged and a current mean of 11.0
(10% change) is not. -/
theorem detector_distribution_shift_iff_witness :
    (∃ a ∈ detect_anomalies_and_drift
        ⟨3, [("x", ⟨Dtype.numeric, 0, some ⟨13, 13, 13, 1⟩⟩)]⟩ []
        (some ⟨3, [("x", ⟨Dtype.numeric, 0, some ⟨10, 10, 10, 1⟩⟩)]⟩),
      a.kind = AnomalyKind.distributionShift ∧ a.column = some "x")
    ∧ ¬ (∃ a ∈ detect_anomalies_and_drift
        ⟨3, [("x", ⟨Dtype.numeric, 0, some ⟨11, 11, 11, 1⟩⟩)]⟩ []
        (some ⟨3, [("x", ⟨Dtype.numeric, 0, some ⟨10, 10, 10, 1⟩⟩)]⟩),
      a.kind = AnomalyKind.distributionShift ∧ a.column = some "x") :=
  ⟨(detector_distribution_shift_iff
      ⟨3, [("x", ⟨Dtype.numeric, 0, some ⟨10, 10, 10, 1⟩⟩)]⟩
      ⟨3, [("x", ⟨Dtype.numeric, 0, some ⟨13, 13, 13, 1⟩⟩)]⟩ [] "x"
      ⟨Dtype.numeric, 0, some ⟨13, 13, 13, 1⟩⟩
      ⟨Dtype.numeric, 0, some ⟨10, 10, 10, 1⟩⟩
      ⟨13, 13, 13, 1⟩ ⟨10, 10, 10, 1⟩
      (by decide) (by decide) (by decide) (by decide) (by decide)).mpr
      (by decide),
   fun h =>
     absurd ((detector_distribution_shift_iff
      ⟨3, [("x", ⟨Dtype.numeric, 0, some ⟨10, 10, 10, 1⟩⟩)]⟩
      ⟨3, [("x", ⟨Dtype.numeric, 0, some ⟨11, 11, 11, 1⟩⟩)]⟩ [] "x"
      ⟨Dtype.numeric, 0, some ⟨11, 11, 11, 1⟩⟩
      ⟨Dtype.numeric, 0, some ⟨10, 10, 10, 1⟩⟩
      ⟨11, 11, 11, 1⟩ ⟨10, 10, 10, 1⟩
      (by decide) (by decide) (by decide) (by decide) (by decide)).mp h)
      (by decide)⟩

end HawkSight
